import Mathlib

/-!
Verification of the task-augmented tool invocation subsystem of `mcp-go`
(`server/task_tool.go`, the typed handler binders, and the espresso example
server).  The Go code is shallowly embedded: pure logic becomes Lean
functions, the middleware adaptor's mutable side-channel slot becomes
explicit state passing, and calls to the external Task Manager collaborator
(`CreateTask`, `FailTask`, `CompleteTask`, `CancelTask`, `RequestInput`)
are recorded in an operation trace and their externally supplied results
are passed in as parameters.
-/

namespace McpGo

/-- A text content block (`mcp.TextContent`). -/
structure TextContent where
  text : String
deriving Repr, DecidableEq

/-- A content block of a tool result (`mcp.Content`); shapes other than
text are irrelevant to the verified code and collapse to `other`. -/
inductive Content where
  | text (t : TextContent)
  | other (tag : String)
deriving Repr, DecidableEq

/-- `mcp.CallToolResult` — the Immediate Result case: ordered content
blocks plus an error flag.  Fields not inspected by the verified code are
omitted. -/
structure CallToolResult where
  content : List Content := []
  isError : Bool := false
deriving Repr, DecidableEq

/-- Modelled from the spec: the task snapshot carried by a Task Handle —
`mcp.CreateTaskResult` lives in the external `mcp` package (its field
layout is not part of the sources verified here); per the spec it is "an
opaque task identifier plus a creation-time status snapshot". -/
structure TaskSnapshot where
  taskId : String
  status : String
deriving Repr, DecidableEq

/-- `mcp.CreateTaskResult` — the Task Handle case of the result union. -/
structure CreateTaskResult where
  task : TaskSnapshot
deriving Repr, DecidableEq

/-- The dynamic value held by an `mcp.AnyToolResult` (a Go `any`
interface): one of the two legal cases, or any other dynamic type,
represented by its type name. -/
inductive AnyValue where
  | callToolResult (r : CallToolResult)
  | createTaskResult (r : CreateTaskResult)
  | other (tag : String)
deriving Repr, DecidableEq

/-- Go `error` values returned by the verified code: the two sentinel
errors of the `server` package plus arbitrary message-carrying errors. -/
inductive GoErr where
  | invalidToolResult
  | invalidResultPayload
  | errMsg (s : String)
deriving Repr, DecidableEq

/-- `ValidateAnyToolResult` (`server/task_tool.go`): the Go argument is a
`*mcp.AnyToolResult`, modelled as `Option AnyValue` (`none` is the nil
pointer).  A nil pointer and any dynamic type other than
`mcp.CallToolResult` / `mcp.CreateTaskResult` fail with
`ErrInvalidToolResult`. -/
def ValidateAnyToolResult : Option AnyValue → Option GoErr
  | none => some .invalidToolResult
  | some (.callToolResult _) => none
  | some (.createTaskResult _) => none
  | some (.other _) => some .invalidToolResult

/-- The dynamic value held by an `mcp.TaskPayloadResult` interface value.
`callToolResultPtr` is the dynamic type `*mcp.CallToolResult` (the one
shape the source's type switch accepts); everything else, including a task
handle, collapses to the remaining cases. -/
inductive TaskPayloadValue where
  | callToolResultPtr (r : CallToolResult)
  | createTaskResult (r : CreateTaskResult)
  | other (tag : String)
deriving Repr, DecidableEq

/-- `ValidateTaskPayload` (`server/task_tool.go`): only the
`*mcp.CallToolResult` dynamic shape passes; everything else fails with
`ErrInvalidResultPayload`. -/
def ValidateTaskPayload : TaskPayloadValue → Option GoErr
  | .callToolResultPtr _ => none
  | .createTaskResult _ => some .invalidResultPayload
  | .other _ => some .invalidResultPayload

/-- `mcp.CallToolRequest`, reduced to the parts the verified code can pass
around; the argument payload is an opaque dynamic value. -/
structure CallToolRequest where
  name : String := ""
deriving Repr, DecidableEq

/-- The outcome of a legacy synchronous handler, Go's
`(*mcp.CallToolResult, error)` pair (either pointer may be nil). -/
abbrev SyncOutcome := Option CallToolResult × Option GoErr

/-- The outcome of a variant-returning handler, Go's
`(*mcp.AnyToolResult, error)` pair. -/
abbrev AnyOutcome := Option AnyValue × Option GoErr

/-- The middleware adaptor's side-channel slot: the value pointed to by
`taskResult := new(*mcp.CreateTaskResult)` (`none` is the nil pointer the
fresh slot starts with). -/
abbrev Slot := Option CreateTaskResult

/-- A variant-returning handler (`TaskToolHandlerFunc`), pure in the
model: the request determines the outcome. -/
abbrev TaskToolHandlerFunc := CallToolRequest → AnyOutcome

/-- How one invocation of a legacy middleware interacts with the
synchronous handler it wraps: it may call that handler with requests of
its choosing, observe each outcome, and finally return an outcome of its
own.  This is exactly the interface a Go `ToolHandlerMiddleware` has to
the handler it receives — in particular it cannot touch the adaptor's
side-channel slot except by invoking the wrapped handler. -/
inductive MwProg where
  | ret (out : SyncOutcome)
  | call (req : CallToolRequest) (k : SyncOutcome → MwProg)

/-- A legacy middleware applied to a wrapped handler: for each incoming
request, the interaction program it runs. -/
abbrev ToolHandlerMiddleware := CallToolRequest → MwProg

/-- Whether the middleware program invokes the wrapped handler at least
once. -/
def MwProg.invokes : MwProg → Bool
  | .ret _ => false
  | .call _ _ => true

/-- Run a middleware program against a (state-threaded) synchronous
handler. -/
def runMwProg : MwProg → (CallToolRequest → Slot → SyncOutcome × Slot) → Slot → SyncOutcome × Slot
  | .ret out, _, s => (out, s)
  | .call req k, h, s =>
    let p := h req s
    runMwProg (k p.1) h p.2

/-- The synchronous-shaped wrapper the adaptor hands to the legacy
middleware (`task_tool.go`, the closure passed to `targetMiddleware`):
errors propagate; an `ImmediateResult` passes straight through; a
`TaskHandle` is written to the side-channel slot and replaced by the empty
placeholder `&mcp.CallToolResult{}`; a nil or other-shaped result also
falls through to the placeholder. -/
def adaptedInner (next : TaskToolHandlerFunc) (request : CallToolRequest) (slot : Slot) :
    SyncOutcome × Slot :=
  match next request with
  | (_, some err) => ((none, some err), slot)
  | (some (.callToolResult r), none) => ((some r, none), slot)
  | (some (.createTaskResult t), none) => ((some {}, none), some t)
  | (some (.other _), none) => ((some {}, none), slot)
  | (none, none) => ((some {}, none), slot)

/-- The outer function the adaptor returns (`task_tool.go`): run the
adapted legacy chain, propagate its error first, otherwise prefer a
captured task handle over the chain's synchronous result, and reject a nil
result with `ErrInvalidToolResult`. -/
def adaptedOuter (adapted : CallToolRequest → Slot → SyncOutcome × Slot)
    (request : CallToolRequest) (slot : Slot) : AnyOutcome × Slot :=
  match adapted request slot with
  | ((result, err), slotAfter) =>
    match err with
    | some e => ((none, some e), slotAfter)
    | none =>
      match slotAfter with
      | some t => ((some (.createTaskResult t), none), slotAfter)
      | none =>
        match result with
        | none => ((none, some .invalidToolResult), slotAfter)
        | some r => ((some (.callToolResult r), none), slotAfter)

/-- `NewTaskToolHandlerMiddlewareAdaptor` (`server/task_tool.go`), as one
invocation step of the adapted handler: the side-channel slot is explicit
state, because in the source it is allocated once per wrapped handler
(`taskResult := new(*mcp.CreateTaskResult)` inside the `next` closure) and
shared by every later invocation of that handler. -/
def NewTaskToolHandlerMiddlewareAdaptor (targetMiddleware : ToolHandlerMiddleware)
    (next : TaskToolHandlerFunc) (request : CallToolRequest) (slot : Slot) :
    AnyOutcome × Slot :=
  adaptedOuter (fun req s => runMwProg (targetMiddleware req) (adaptedInner next) s) request slot

/-- A sequence of invocations of one middleware-adapted handler: the slot
state produced by each invocation is the slot state the next one starts
from, exactly as the hoisted Go slot behaves. -/
def runAdaptedSeq (targetMiddleware : ToolHandlerMiddleware) (next : TaskToolHandlerFunc) :
    List CallToolRequest → Slot → List AnyOutcome × Slot
  | [], s => ([], s)
  | req :: reqs, s =>
    let p := NewTaskToolHandlerMiddlewareAdaptor targetMiddleware next req s
    let rest := runAdaptedSeq targetMiddleware next reqs p.2
    (p.1 :: rest.1, rest.2)

/-- The outputs observed by the callers across a sequence of invocations
of one adapted handler, starting from the freshly allocated (nil) slot. -/
def invokeAdaptedSeq (targetMiddleware : ToolHandlerMiddleware) (next : TaskToolHandlerFunc)
    (reqs : List CallToolRequest) : List AnyOutcome :=
  (runAdaptedSeq targetMiddleware next reqs none).1

/-- A pass-through legacy middleware: it invokes the wrapped handler once,
with the incoming request, and returns its outcome unchanged. -/
def passThroughMiddleware : ToolHandlerMiddleware :=
  fun req => .call req (fun out => .ret out)

/-- A variant-returning handler that always answers immediately, with the
`ImmediateResult` computed by `f`. -/
def immediateHandler (f : CallToolRequest → CallToolResult) : TaskToolHandlerFunc :=
  fun req => (some (.callToolResult (f req)), none)

/-- A variant-returning handler that always returns the task handle `t`. -/
def taskHandler (t : CreateTaskResult) : TaskToolHandlerFunc :=
  fun _ => (some (.createTaskResult t), none)

/-- `NewTaskToolAfterHookAdaptor` (`server/task_tool.go`): the adapted
after-hook receives a `*mcp.AnyToolResult` and forwards to the legacy
`hooks.afterCallTool` only when the dynamic value is an
`mcp.CallToolResult`.  The model returns the legacy hook's call log: the
list of results it is invoked with. -/
def NewTaskToolAfterHookAdaptor : Option AnyValue → List CallToolResult
  | some (.callToolResult r) => [r]
  | some (.createTaskResult _) => []
  | some (.other _) => []
  | none => []

/-- Once the side-channel slot holds the captured task handle, no further
interaction of the middleware with the wrapper changes it, as long as the
underlying handler keeps returning that task handle. -/
theorem runMwProg_slot_stays_captured (next : TaskToolHandlerFunc) (t : CreateTaskResult)
    (h : ∀ r, next r = (some (.createTaskResult t), none)) :
    ∀ prog : MwProg, (runMwProg prog (adaptedInner next) (some t)).2 = some t := by
  intro prog
  induction prog with
  | ret out => rfl
  | call req k ih =>
    have hstep : adaptedInner next req (some t) = ((some {}, none), some t) := by
      simp [adaptedInner, h req]
    simp only [runMwProg, hstep]
    exact ih _

/-- If the middleware invokes the wrapper at least once and the handler
returns the task handle `t`, the slot ends up holding `t`, from any
starting slot state. -/
theorem runMwProg_slot_captured (next : TaskToolHandlerFunc) (t : CreateTaskResult)
    (h : ∀ r, next r = (some (.createTaskResult t), none))
    (req : CallToolRequest) (k : SyncOutcome → MwProg) (s : Slot) :
    (runMwProg (.call req k) (adaptedInner next) s).2 = some t := by
  have hstep : adaptedInner next req s = ((some {}, none), some t) := by
    simp [adaptedInner, h req]
  simp only [runMwProg, hstep]
  exact runMwProg_slot_stays_captured next t h _

/-- Modelled from the spec: `mcp.NewToolResultError` lives in the external
part of the `mcp` package (not among the verified sources); per the spec
it builds an Immediate Result "flagged as an error" whose text describes
the failure. -/
def NewToolResultError (text : String) : CallToolResult :=
  { content := [.text ⟨text⟩], isError := true }

/-- `NewTypedToolHandler` (typed handler binder): the external argument
binder `request.BindArguments` is passed in as `binder`; on binding
failure the wrapper returns an error-flagged result with message
`failed to bind arguments: ...` and a nil error, without calling the
wrapped handler; on success it invokes the handler with the bound
arguments. -/
def NewTypedToolHandler {T : Type} (binder : CallToolRequest → Except String T)
    (handler : CallToolRequest → T → SyncOutcome) : CallToolRequest → SyncOutcome :=
  fun request =>
    match binder request with
    | .error e => (some (NewToolResultError ("failed to bind arguments: " ++ e)), none)
    | .ok args => handler request args

/-- `NewTypedTaskToolHandler`: as `NewTypedToolHandler`, for a
variant-returning handler; the binding-failure result is wrapped into the
`AnyToolResult` union. -/
def NewTypedTaskToolHandler {T : Type} (binder : CallToolRequest → Except String T)
    (handler : CallToolRequest → T → AnyOutcome) : CallToolRequest → AnyOutcome :=
  fun request =>
    match binder request with
    | .error e =>
      (some (.callToolResult (NewToolResultError ("failed to bind arguments: " ++ e))), none)
    | .ok args => handler request args

/-- Go dynamic (`any`) values as they occur as elicitation content: nil,
a string, a `map[string]any`, or anything else (by type name). -/
inductive GoVal where
  | nil
  | str (s : String)
  | strMap (entries : List (String × GoVal))
  | other (tag : String)
deriving Repr

/-- Go's `%T` formatting of the dynamic values above. -/
def goTypeName : GoVal → String
  | .nil => "<nil>"
  | .str _ => "string"
  | .strMap _ => "map[string]interface \x7b\x7d"
  | .other tag => tag

/-- The observable operations the espresso example performs against the
external Task Manager, plus worker spawns (`go makeEspresso`). -/
inductive ServerOp where
  | createTask (ttlNanos : Int)
  | failTask (taskId : String) (errMsg : String)
  | completeTask (taskId : String) (payload : CallToolResult)
  | cancelTask (taskId : String)
  | requestInput (taskId : String)
  | goMakeEspresso
deriving Repr, DecidableEq

/-- `EspressoArgs` of the example server.  `temperature` and
`preinfusion` only drive sleep durations, which are not modelled. -/
structure EspressoArgs where
  roast : String
  recipient : String
  shots : Int
  temperature : Float
  preinfusion : Bool

/-- The three elicitation response actions. -/
inductive ElicitationAction where
  | accept
  | decline
  | cancel
deriving Repr, DecidableEq

/-- An elicitation response: the action plus the `any`-typed content. -/
structure ElicitationResult where
  action : ElicitationAction
  content : GoVal
deriving Repr

/-- `int64(1*time.Hour)`: one hour in nanoseconds, the TTL the espresso
handler creates its task with. -/
def oneHourNanos : Int := 3600000000000

/-- Modelled from the spec: `CreateTaskResult.ToAnyResult` is external
`mcp` code; it returns the created task's handle as the
`AnyToolResult` union value the handler hands back to the caller. -/
def CreateTaskResult.ToAnyResult (r : CreateTaskResult) : Option AnyValue :=
  some (.createTaskResult r)

/-- `espressoHandler` of the example server, with the external
collaborators made explicit: `taskId` and `created` are what `CreateTask`
returns, `failTaskErr` is what `FailTask` returns on the missing-roast
path.  Output: the trace of Task Manager operations / worker spawns, and
the handler's returned `(*mcp.AnyToolResult, error)` pair. -/
def espressoHandler (args : EspressoArgs) (taskId : String) (created : CreateTaskResult)
    (failTaskErr : Option GoErr) : List ServerOp × AnyOutcome :=
  if args.roast = "" then
    match failTaskErr with
    | some e =>
      ([.createTask oneHourNanos, .failTask taskId "recipient is required"], (none, some e))
    | none =>
      ([.createTask oneHourNanos, .failTask taskId "recipient is required"],
        (created.ToAnyResult, none))
  else
    ([.createTask oneHourNanos, .goMakeEspresso], (created.ToAnyResult, none))

/-- The content-extraction block of `makeEspresso`, which runs
unconditionally after the accept/decline cases of the elicitation switch:
each failed assertion calls `FailTask`, logs, and keeps going, and the
final multi-assignment `args.Recipient, ok = customerName.(string)`
overwrites the recipient with the asserted string — or with the empty
string when the assertion fails.  Returns the `FailTask` trace and the
final recipient value. -/
def extractCustomerName (content : GoVal) (taskId : String) : List ServerOp × String :=
  let dataOk := match content with
    | .strMap m => (m, true)
    | _ => (([] : List (String × GoVal)), false)
  let ops1 := if dataOk.2 then [] else
    [ServerOp.failTask taskId
      ("unexpected input result type: expected map[string]any, got " ++ goTypeName content)]
  let nameOk := match dataOk.1.lookup "customerName" with
    | some v => (v, true)
    | none => (GoVal.nil, false)
  let ops2 := if nameOk.2 then [] else
    [ServerOp.failTask taskId
      ("unexpected input result type: expected map[string]any, got " ++ goTypeName content)]
  let strOk := match nameOk.1 with
    | .str s => (s, true)
    | _ => ("", false)
  let ops3 := if strOk.2 then [] else
    [ServerOp.failTask taskId
      ("unexpected input result type: expected string, got " ++ goTypeName content)]
  (ops1 ++ ops2 ++ ops3, strOk.1)

/-- The completion payload of `makeEspresso`:
`fmt.Sprintf("%d shots of %s for %s!", args.Shots, args.Roast, args.Recipient)`
as a text content block. -/
def espressoPayload (args : EspressoArgs) : CallToolResult :=
  { content := [.text ⟨toString args.shots ++ " shots of " ++ args.roast ++ " for "
      ++ args.recipient ++ "!"⟩] }

/-- `makeEspresso` of the example server (the worker), with the external
inputs made explicit: `cancelled` — whether the task context is done
before the twenty-second warm-up timer fires; `elicit` / `elicitErr` — the
`RequestInput` response; `completeErr` — what `CompleteTask` returns.
Sleeps are not modelled.  Output: the trace of Task Manager operations.
`Except.error` marks early exits (cancellation, fatal paths). -/
def makeEspresso (args : EspressoArgs) (taskId : String) (cancelled : Bool)
    (elicit : ElicitationResult) (elicitErr : Option String)
    (completeErr : Option String) : List ServerOp :=
  if cancelled then []
  else
    match
      (if args.recipient = "" then
        match elicitErr with
        | some e => Except.error [ServerOp.requestInput taskId, ServerOp.failTask taskId e]
        | none =>
          match elicit.action with
          | .cancel =>
            Except.error [ServerOp.requestInput taskId, ServerOp.cancelTask taskId]
          | .decline =>
            let args1 := { args with recipient := "anonymous customer" }
            let ext := extractCustomerName elicit.content taskId
            Except.ok (ServerOp.requestInput taskId :: ext.1,
              { args1 with recipient := ext.2 })
          | .accept =>
            let ext := extractCustomerName elicit.content taskId
            Except.ok (ServerOp.requestInput taskId :: ext.1,
              { args with recipient := ext.2 })
      else Except.ok ([], args)) with
    | .error ops => ops
    | .ok p =>
      p.1 ++ [ServerOp.completeTask taskId (espressoPayload p.2)]
        ++ (match completeErr with
            | some e => [ServerOp.failTask taskId e]
            | none => [])

end McpGo

namespace McpGo

/-- C7: `ValidateAnyToolResult` accepts exactly the two legal shapes
(`CallToolResult` and `CreateTaskResult`); a nil pointer and every other
dynamic shape fail with `ErrInvalidToolResult`. -/
theorem validateAnyToolResult_exactly_two_shapes :
    (∀ r : CallToolResult, ValidateAnyToolResult (some (.callToolResult r)) = none) ∧
    (∀ t : CreateTaskResult, ValidateAnyToolResult (some (.createTaskResult t)) = none) ∧
    ValidateAnyToolResult none = some .invalidToolResult ∧
    (∀ tag : String, ValidateAnyToolResult (some (.other tag)) = some .invalidToolResult) := by
  refine ⟨fun r => rfl, fun t => rfl, rfl, fun tag => rfl⟩

/-- C8: `ValidateTaskPayload` accepts only the `CallToolResult` payload
shape; every other shape — a `CreateTaskResult` task handle included —
fails with `ErrInvalidResultPayload`. -/
theorem validateTaskPayload_only_immediate :
    (∀ r : CallToolResult, ValidateTaskPayload (.callToolResultPtr r) = none) ∧
    (∀ t : CreateTaskResult, ValidateTaskPayload (.createTaskResult t) = some .invalidResultPayload) ∧
    (∀ tag : String, ValidateTaskPayload (.other tag) = some .invalidResultPayload) := by
  refine ⟨fun r => rfl, fun t => rfl, fun tag => rfl⟩

/-- C1: when the inner variant-returning handler returns the task handle
`t` (and no error), and the legacy middleware chain actually invokes the
wrapped handler and finishes without error, the adaptor's final output is
that task handle, whatever synchronous result the chain returned for its
placeholder — from any starting state of the side-channel slot. -/
theorem middlewareAdaptor_task_capture (mw : ToolHandlerMiddleware) (next : TaskToolHandlerFunc)
    (t : CreateTaskResult) (req : CallToolRequest) (s : Slot)
    (h : ∀ r, next r = (some (.createTaskResult t), none))
    (hinv : (mw req).invokes = true)
    (herr : (runMwProg (mw req) (adaptedInner next) s).1.2 = none) :
    (NewTaskToolHandlerMiddlewareAdaptor mw next req s).1
      = (some (.createTaskResult t), none) := by
  cases hmw : mw req with
  | ret out =>
    rw [hmw] at hinv
    simp [MwProg.invokes] at hinv
  | call r k =>
    have hslot : (runMwProg (mw req) (adaptedInner next) s).2 = some t := by
      rw [hmw]
      exact runMwProg_slot_captured next t h r k s
    rcases hp : runMwProg (mw req) (adaptedInner next) s with ⟨⟨result, err⟩, slotAfter⟩
    rw [hp] at herr hslot
    simp only at herr hslot
    subst herr
    subst hslot
    simp [NewTaskToolHandlerMiddlewareAdaptor, adaptedOuter, hp]

/-- C1 witness: a concrete adapted call through the pass-through
middleware with a handler returning a concrete task handle. -/
theorem middlewareAdaptor_task_capture_witness :
    (NewTaskToolHandlerMiddlewareAdaptor passThroughMiddleware
        (taskHandler ⟨⟨"task-w1", "working"⟩⟩) ⟨"w"⟩ none).1
      = (some (.createTaskResult ⟨⟨"task-w1", "working"⟩⟩), none) :=
  middlewareAdaptor_task_capture passThroughMiddleware (taskHandler ⟨⟨"task-w1", "working"⟩⟩)
    ⟨⟨"task-w1", "working"⟩⟩ ⟨"w"⟩ none (fun _ => rfl) rfl rfl

/-- C3: a variant-returning handler that always answers immediately,
wrapped with the middleware adaptor and the pass-through legacy
middleware, yields on every request of every invocation sequence exactly
the immediate result the handler itself produces on that request. -/
theorem middlewareAdaptor_transparent (f : CallToolRequest → CallToolResult)
    (reqs : List CallToolRequest) :
    invokeAdaptedSeq passThroughMiddleware (immediateHandler f) reqs
      = reqs.map (immediateHandler f) := by
  have hstep : ∀ r : CallToolRequest,
      NewTaskToolHandlerMiddlewareAdaptor passThroughMiddleware (immediateHandler f) r none
        = ((some (.callToolResult (f r)), none), none) := fun r => rfl
  unfold invokeAdaptedSeq
  induction reqs with
  | nil => rfl
  | cons r rs ih =>
    simp only [runAdaptedSeq, hstep, List.map]
    simpa [immediateHandler] using ih

/-- C10: if the adapted legacy chain finishes with a non-nil error, the
adaptor returns `(nil, that error)` — even when the inner handler had
already stored a task handle in the side-channel slot during that
invocation (`sAfter` is unconstrained, and the witness realizes it as a
captured handle). -/
theorem middlewareAdaptor_error_wins (mw : ToolHandlerMiddleware) (next : TaskToolHandlerFunc)
    (req : CallToolRequest) (s : Slot)
    (result : Option CallToolResult) (e : GoErr) (sAfter : Slot)
    (hrun : runMwProg (mw req) (adaptedInner next) s = ((result, some e), sAfter)) :
    (NewTaskToolHandlerMiddlewareAdaptor mw next req s).1 = (none, some e) := by
  simp [NewTaskToolHandlerMiddlewareAdaptor, adaptedOuter, hrun]

/-- A legacy middleware that invokes the wrapped handler and then reports
an error of its own, discarding the handler's outcome. -/
def erroringMiddleware : ToolHandlerMiddleware :=
  fun req => .call req (fun _ => .ret (none, some (.errMsg "middleware rejected")))

/-- C10 witness: the erroring middleware around a handler returning a task
handle — the slot is captured during the run, yet the error is returned. -/
theorem middlewareAdaptor_error_wins_witness :
    (NewTaskToolHandlerMiddlewareAdaptor erroringMiddleware
        (taskHandler ⟨⟨"task-w2", "working"⟩⟩) ⟨"w"⟩ none).1
      = (none, some (.errMsg "middleware rejected")) :=
  middlewareAdaptor_error_wins erroringMiddleware (taskHandler ⟨⟨"task-w2", "working"⟩⟩)
    ⟨"w"⟩ none none (.errMsg "middleware rejected")
    (some ⟨⟨"task-w2", "working"⟩⟩) rfl

/-- A handler that returns a task handle for the request named `"first"`
and an immediate result for every other request. -/
def staleSlotHandler : TaskToolHandlerFunc := fun req =>
  if req.name = "first" then (some (.createTaskResult ⟨⟨"task-1", "working"⟩⟩), none)
  else (some (.callToolResult ⟨[.text ⟨"done"⟩], false⟩), none)

/-- C2 refutation: the side-channel slot is allocated once per adapted
handler and never reset, so after a first invocation captures a task
handle, a second invocation whose inner handler returns an immediate
result still outputs the first invocation's stale task handle instead of
that immediate result. -/
theorem middlewareAdaptor_slot_reused_across_invocations :
    invokeAdaptedSeq passThroughMiddleware staleSlotHandler [⟨"first"⟩, ⟨"second"⟩]
      = [(some (.createTaskResult ⟨⟨"task-1", "working"⟩⟩), none),
         (some (.createTaskResult ⟨⟨"task-1", "working"⟩⟩), none)] := by
  rfl

/-- C5: the adapted after-hook never forwards a task-handle result to the
legacy after-call hook, and forwards an immediate result to it exactly
once, with that same result. -/
theorem afterHookAdaptor_forwarding :
    (∀ t : CreateTaskResult, NewTaskToolAfterHookAdaptor (some (.createTaskResult t)) = []) ∧
    (∀ r : CallToolResult, NewTaskToolAfterHookAdaptor (some (.callToolResult r)) = [r]) := by
  refine ⟨fun t => rfl, fun r => rfl⟩

/-- C6: when binding fails, both typed-handler wrappers return an
error-flagged immediate result whose text describes the binding failure,
with a nil Go error; the output is the same for every wrapped handler, so
the wrapped handler is never invoked. -/
theorem typedHandler_binding_failure {T : Type} (binder : CallToolRequest → Except String T)
    (req : CallToolRequest) (e : String) (hbind : binder req = .error e) :
    (∀ handler : CallToolRequest → T → AnyOutcome,
      NewTypedTaskToolHandler binder handler req
        = (some (.callToolResult (NewToolResultError ("failed to bind arguments: " ++ e))),
           none)) ∧
    (∀ handler : CallToolRequest → T → SyncOutcome,
      NewTypedToolHandler binder handler req
        = (some (NewToolResultError ("failed to bind arguments: " ++ e)), none)) ∧
    (NewToolResultError ("failed to bind arguments: " ++ e)).isError = true ∧
    (NewToolResultError ("failed to bind arguments: " ++ e)).content
        = [.text ⟨"failed to bind arguments: " ++ e⟩] := by
  refine ⟨fun handler => ?_, fun handler => ?_, rfl, rfl⟩ <;>
    simp [NewTypedTaskToolHandler, NewTypedToolHandler, hbind]

/-- C6 witness: a concrete binder that always fails, under a concrete
handler. -/
theorem typedHandler_binding_failure_witness :
    NewTypedTaskToolHandler (fun _ : CallToolRequest => (.error "oops" : Except String Nat))
        (fun _ _ => (none, none)) ⟨"w"⟩
      = (some (.callToolResult (NewToolResultError ("failed to bind arguments: " ++ "oops"))),
         none) :=
  (typedHandler_binding_failure (fun _ => .error "oops") ⟨"w"⟩ "oops" rfl).1
    (fun _ _ => (none, none))

/-- C9: on a request missing the required roast field, the handler creates
a task with a one-hour TTL, calls `FailTask` exactly once with a
"... is required" error, spawns no worker, and returns the created task's
handle with a nil Go error; it raises only when the `FailTask` call itself
fails. -/
theorem espressoHandler_missing_field (args : EspressoArgs) (taskId : String)
    (created : CreateTaskResult) (hroast : args.roast = "") :
    (espressoHandler args taskId created none
        = ([.createTask oneHourNanos, .failTask taskId "recipient is required"],
           (some (.createTaskResult created), none))) ∧
    ServerOp.goMakeEspresso ∉ (espressoHandler args taskId created none).1 ∧
    (∀ e : GoErr, espressoHandler args taskId created (some e)
        = ([.createTask oneHourNanos, .failTask taskId "recipient is required"],
           (none, some e))) := by
  refine ⟨?_, ?_, fun e => ?_⟩ <;>
    simp [espressoHandler, hroast, CreateTaskResult.ToAnyResult]

/-- C9 witness: a concrete request with an empty roast field. -/
theorem espressoHandler_missing_field_witness :
    espressoHandler ⟨"", "", 2, 70, false⟩ "task-9" ⟨⟨"task-9", "working"⟩⟩ none
      = ([.createTask oneHourNanos, .failTask "task-9" "recipient is required"],
         (some (.createTaskResult ⟨⟨"task-9", "working"⟩⟩), none)) :=
  (espressoHandler_missing_field ⟨"", "", 2, 70, false⟩ "task-9" ⟨⟨"task-9", "working"⟩⟩ rfl).1

/-- C4 refutation: on a `decline` elicitation response (whose content is
nil) with no cancellation and no reporting errors, the worker calls
`FailTask` three times and completes with a payload whose recipient is the
empty string — the `"anonymous customer"` default set in the decline case
is overwritten by the unconditional content-extraction block, and the
completion text does not contain the default. -/
theorem makeEspresso_decline_clobbers_default :
    makeEspresso ⟨"dark", "", 2, 90, false⟩ "task-4" false ⟨.decline, .nil⟩ none none
      = [.requestInput "task-4",
         .failTask "task-4" "unexpected input result type: expected map[string]any, got <nil>",
         .failTask "task-4" "unexpected input result type: expected map[string]any, got <nil>",
         .failTask "task-4" "unexpected input result type: expected string, got <nil>",
         .completeTask "task-4" ⟨[.text ⟨"2 shots of dark for !"⟩], false⟩] := by
  rfl

end McpGo
